import Mathlib

/-!
Shallow embedding of the cascading multi-provider quote resolution pipeline
of src/src/App.tsx (stock-dashboard).

JavaScript numbers that matter to the pipeline are modelled by JNum:
a rational, NaN, or a signed infinity.  Every numeric field the code reads
from a provider payload goes through Number(...) in the source; the
environment (Env) supplies the already-converted JNum for each such field
(Number is surjective onto doubles: a missing or non-numeric field yields
JNum.nan, a huge or "Infinity" string yields an infinity).  A thrown
JavaScript error (network failure, non-2xx status via axios, TypeError
from calling map on a non-array) is modelled by Except.error ().
React state setters (setStocks, setDataSource, setNote, setLoading,
setError) are modelled by explicit state passing on AppState; they never
throw.
-/

/-- Model of a JavaScript number: NaN, +Infinity, -Infinity, or a finite
value (as a rational). -/
inductive JNum where
  | nan : JNum
  | inf : JNum
  | ninf : JNum
  | num : ℚ → JNum
deriving DecidableEq, Repr

namespace JNum

/-- JavaScript truthiness of a number: NaN and 0 are falsy, everything else
(including the infinities) is truthy. -/
def truthy : JNum → Bool
  | nan => false
  | num q => q != 0
  | _ => true

/-- JavaScript Number.isFinite. -/
def isFinite : JNum → Bool
  | num _ => true
  | _ => false

/-- JavaScript subtraction on numbers. -/
def sub : JNum → JNum → JNum
  | nan, _ => nan
  | _, nan => nan
  | inf, inf => nan
  | inf, _ => inf
  | ninf, ninf => nan
  | ninf, _ => ninf
  | num _, inf => ninf
  | num _, ninf => inf
  | num a, num b => num (a - b)

/-- JavaScript division on numbers (signed zero is collapsed to 0; the
division-by-zero branches are unreachable at the call site in the code,
which guards the divisor by truthiness). -/
def div : JNum → JNum → JNum
  | nan, _ => nan
  | _, nan => nan
  | inf, inf => nan
  | inf, ninf => nan
  | ninf, inf => nan
  | ninf, ninf => nan
  | inf, num b => if b < 0 then ninf else inf
  | ninf, num b => if b < 0 then inf else ninf
  | num _, inf => num 0
  | num _, ninf => num 0
  | num a, num b =>
    if b = 0 then (if a = 0 then nan else if a < 0 then ninf else inf)
    else num (a / b)

/-- JavaScript multiplication on numbers. -/
def mul : JNum → JNum → JNum
  | nan, _ => nan
  | _, nan => nan
  | inf, inf => inf
  | inf, ninf => ninf
  | ninf, inf => ninf
  | ninf, ninf => inf
  | inf, num b => if b = 0 then nan else if b < 0 then ninf else inf
  | num a, inf => if a = 0 then nan else if a < 0 then ninf else inf
  | ninf, num b => if b = 0 then nan else if b < 0 then inf else ninf
  | num a, ninf => if a = 0 then nan else if a < 0 then inf else ninf
  | num a, num b => num (a * b)

end JNum

/-- interface Stock (App.tsx lines 12-16): symbol, latest price, percent
change vs previous close.  price and change are JavaScript numbers and may
be NaN. -/
structure Stock where
  symbol : String
  price : JNum
  change : JNum
deriving DecidableEq, Repr

/-- const SYMBOLS (App.tsx line 18). -/
def SYMBOLS : List String := ["AAPL", "MSFT", "GOOGL", "AMZN"]

/-- The dataSource union type (App.tsx lines 26-28). -/
inductive Source where
  | Finnhub : Source
  | FMP : Source
  | TwelveData : Source
  | Demo : Source
deriving DecidableEq, Repr

/-- The React component state the pipeline reads and writes (App.tsx
lines 21-28); query is presentation-only and omitted. -/
structure AppState where
  stocks : List Stock
  loading : Bool
  error : String
  note : String
  dataSource : Source
deriving DecidableEq, Repr

/-- Initial state from the useState calls (App.tsx lines 21-28). -/
def initialState : AppState :=
  { stocks := [], loading := true, error := "", note := "", dataSource := Source.Demo }

/-- A Finnhub per-symbol response payload: the fields data.c and data.pc
after Number(...) conversion (App.tsx lines 41-42). -/
structure FinnhubResp where
  c : JNum
  pc : JNum
deriving DecidableEq, Repr

/-- One element of the FMP batched response array: d.symbol, and the fields
d.price and d.changesPercentage after Number(...) conversion (App.tsx
lines 55-59). -/
structure FmpItem where
  symbol : String
  price : JNum
  changesPercentage : JNum
deriving DecidableEq, Repr

/-- The body of a successful FMP response: either an array of items, or a
non-array value, on which data.map throws a TypeError (App.tsx line 55). -/
inductive FmpData where
  | arr : List FmpItem → FmpData
  | notArr : FmpData
deriving DecidableEq, Repr

/-- An HTTP GET request issued by the pipeline, with the query parameters
the code passes (App.tsx lines 38-39, 52-53, 76-77). -/
inductive Request where
  | finnhub : String → String → Request
  | fmp : String → String → Request
  | twelve : String → String → Request
deriving DecidableEq, Repr

/-- Which provider a request goes to. -/
def Request.provider : Request → Source
  | Request.finnhub _ _ => Source.Finnhub
  | Request.fmp _ _ => Source.FMP
  | Request.twelve _ _ => Source.TwelveData

/-- The external world: the raw REACT_APP_FINNHUB_KEY environment variable
(absent or a string), and the behaviour of each provider endpoint.
Except.error () is a thrown axios error (network failure or non-success
status); Except.ok carries the decoded payload fields the code consumes. -/
structure Env where
  rawKey : Option String
  finnhub : String → Except Unit FinnhubResp
  fmp : Except Unit FmpData
  twelve : String → Except Unit JNum

/-- JavaScript String.prototype.trim: drop leading and trailing whitespace
(modelled over the character list of the string). -/
def jsTrim (s : String) : String :=
  String.mk (((s.data.dropWhile Char.isWhitespace).reverse.dropWhile
    Char.isWhitespace).reverse)

/-- const API_KEY = (process.env.REACT_APP_FINNHUB_KEY or "").trim()
(App.tsx line 31): an absent or empty variable is falsy, so the or-chain
yields "", then trim is applied. -/
def apiKey (raw : Option String) : String :=
  jsTrim (match raw with
          | none => ""
          | some s => if s = "" then "" else s)

/-- const change = prev ? ((price - prev) / prev) * 100 : 0 (App.tsx
line 43). -/
def changeCalc (price prev : JNum) : JNum :=
  if prev.truthy then ((price.sub prev).div prev).mul (JNum.num 100)
  else JNum.num 0

/-- One Finnhub per-symbol fetch and normalisation (App.tsx lines 38-44):
an axios throw rejects; otherwise the quote is built from data.c and
data.pc with no validation of either field. -/
def finnhubQuote (env : Env) (sym : String) : Except Unit Stock :=
  match env.finnhub sym with
  | Except.error e => Except.error e
  | Except.ok d =>
    Except.ok { symbol := sym, price := d.c, change := changeCalc d.c d.pc }

/-- Promise.all over SYMBOLS.map for Finnhub (App.tsx lines 36-46): any
single rejection rejects the whole batch; otherwise the quotes keep the
input order. -/
def finnhubQuotes (env : Env) : List String → Except Unit (List Stock)
  | [] => Except.ok []
  | sym :: rest =>
    match finnhubQuote env sym with
    | Except.error e => Except.error e
    | Except.ok q =>
      match finnhubQuotes env rest with
      | Except.error e => Except.error e
      | Except.ok qs => Except.ok (q :: qs)

/-- The requests issued by a Finnhub attempt once the key check passed:
Promise.all starts one GET per symbol, so all of them are issued even when
some reject (App.tsx lines 36-40). -/
def finnhubReqs (env : Env) : List Request :=
  SYMBOLS.map (fun sym => Request.finnhub sym (apiKey env.rawKey))

/-- What one adapter attempt produces: its JavaScript return or throw, the
component state after the attempt, and the network requests it issued. -/
structure StepOut where
  outcome : Except Unit (List Stock)
  state : AppState
  reqs : List Request
deriving Repr

/-- const fetchWithFinnhub (App.tsx lines 34-49): throws immediately on an
empty API key with no request issued; otherwise fans out one request per
symbol and, only if every one succeeds, sets dataSource to Finnhub and
returns the quotes. -/
def fetchWithFinnhubS (env : Env) (s : AppState) : StepOut :=
  if apiKey env.rawKey = "" then
    { outcome := Except.error (), state := s, reqs := [] }
  else
    match finnhubQuotes env SYMBOLS with
    | Except.ok res =>
      { outcome := Except.ok res
        state := { s with dataSource := Source.Finnhub }
        reqs := finnhubReqs env }
    | Except.error e =>
      { outcome := Except.error e, state := s, reqs := finnhubReqs env }

/-- Mapping of one FMP array element to a Stock (App.tsx lines 55-59):
fields are taken as delivered, with no validation against SYMBOLS. -/
def fmpToStock (d : FmpItem) : Stock :=
  { symbol := d.symbol, price := d.price, change := d.changesPercentage }

/-- The single batched FMP request (App.tsx lines 52-54). -/
def fmpReqs : List Request :=
  [Request.fmp (String.intercalate "," SYMBOLS) "demo"]

/-- const fetchWithFMP (App.tsx lines 51-62): one batched GET; an axios
throw or a non-array body throws; an array body of any length is mapped
element-by-element, dataSource is set to FMP and the mapped list returned. -/
def fetchWithFMPS (env : Env) (s : AppState) : StepOut :=
  match env.fmp with
  | Except.error _ =>
    { outcome := Except.error (), state := s, reqs := fmpReqs }
  | Except.ok FmpData.notArr =>
    { outcome := Except.error (), state := s, reqs := fmpReqs }
  | Except.ok (FmpData.arr items) =>
    { outcome := Except.ok (items.map fmpToStock)
      state := { s with dataSource := Source.FMP }
      reqs := fmpReqs }

/-- const FALLBACK inside fetchWithTwelveData (App.tsx lines 66-71). -/
def FALLBACK : List (String × ℚ) :=
  [("AAPL", 228.48), ("MSFT", 452.12), ("GOOGL", 165.39), ("AMZN", 182.77)]

/-- Record lookup FALLBACK[sym] (App.tsx lines 80, 83). -/
def fallbackLookup (sym : String) : Option ℚ :=
  (FALLBACK.find? (fun p => p.1 == sym)).map Prod.snd

/-- One TwelveData per-symbol fetch (App.tsx lines 74-84): a thrown request
is caught and substituted with FALLBACK[sym] ?? 0; a delivered payload has
Number(data?.price) taken when finite, else FALLBACK[sym] ?? 0; change is
always 0.  This function is total: it never throws. -/
def twelveQuote (env : Env) (sym : String) : Stock :=
  match env.twelve sym with
  | Except.error _ =>
    { symbol := sym, price := JNum.num ((fallbackLookup sym).getD 0), change := JNum.num 0 }
  | Except.ok raw =>
    { symbol := sym
      price := if raw.isFinite then raw else JNum.num ((fallbackLookup sym).getD 0)
      change := JNum.num 0 }

/-- The note fetchWithTwelveData sets (App.tsx line 89). -/
def twelveNote : String :=
  "TwelveData demo in use; missing quotes filled with sample prices."

/-- The requests issued by a TwelveData attempt: Promise.all starts one
GET per symbol, all issued regardless of individual outcomes (App.tsx
lines 73-78). -/
def twelveReqs : List Request :=
  SYMBOLS.map (fun sym => Request.twelve sym "demo")

/-- const fetchWithTwelveData (App.tsx lines 64-91): per-symbol fan-out in
input order, every per-symbol failure individually substituted, then
dataSource and the advisory note are set; the outcome is always ok. -/
def fetchWithTwelveDataS (env : Env) (s : AppState) : StepOut :=
  { outcome := Except.ok (SYMBOLS.map (twelveQuote env))
    state := { s with dataSource := Source.TwelveData, note := twelveNote }
    reqs := twelveReqs }

/-- const DEMO (App.tsx lines 93-98): the static fallback dataset used as
the cascade terminus. -/
def DEMO : List Stock :=
  [ { symbol := "AAPL", price := JNum.num 228.48, change := JNum.num 0.87 }
  , { symbol := "MSFT", price := JNum.num 452.12, change := JNum.num (-0.32) }
  , { symbol := "GOOGL", price := JNum.num 165.39, change := JNum.num 0.41 }
  , { symbol := "AMZN", price := JNum.num 182.77, change := JNum.num 1.12 } ]

/-- The note the Demo branch sets (App.tsx line 118). -/
def demoNote : String := "Using local demo data (APIs unavailable)."

/-- What a resolution call delivers to its caller: the final component
state if the call returned normally, or a propagated error; plus the full
ordered trace of network requests issued. -/
structure RunOut where
  result : Except Unit AppState
  reqs : List Request

/-- const run (App.tsx lines 100-124), abstracted over the three adapter
attempts exactly as the nested try/catch structure composes them: reset
loading, error and note; try A; on throw try B; on throw try C; on throw
fall back to DEMO with source Demo and the advisory note; finally clear
loading.  Every catch absorbs the error, so the result is ok in every
branch: a throw could only escape from a region outside all three catch
blocks, and there is none. -/
def runWithE (fA fB fC : AppState → StepOut) (s0 : AppState) : RunOut :=
  let s1 : AppState := { s0 with loading := true, error := "", note := "" }
  let oA := fA s1
  match oA.outcome with
  | Except.ok res =>
    { result := Except.ok { oA.state with stocks := res, loading := false }
      reqs := oA.reqs }
  | Except.error _ =>
    let oB := fB oA.state
    match oB.outcome with
    | Except.ok res =>
      { result := Except.ok { oB.state with stocks := res, loading := false }
        reqs := oA.reqs ++ oB.reqs }
    | Except.error _ =>
      let oC := fC oB.state
      match oC.outcome with
      | Except.ok res =>
        { result := Except.ok { oC.state with stocks := res, loading := false }
          reqs := oA.reqs ++ oB.reqs ++ oC.reqs }
      | Except.error _ =>
        { result := Except.ok
            { oC.state with
              stocks := DEMO
              dataSource := Source.Demo
              note := demoNote
              loading := false }
          reqs := oA.reqs ++ oB.reqs ++ oC.reqs }

/-- const run instantiated with the three fetchers of App.tsx. -/
def run (env : Env) (s0 : AppState) : RunOut :=
  runWithE (fetchWithFinnhubS env) (fetchWithFMPS env) (fetchWithTwelveDataS env) s0

/-- A resolution call as triggered by the effect (App.tsx line 126): run
from the initial component state. -/
def resolve (env : Env) : RunOut :=
  run env initialState

/-- An adapter attempt that always throws, touches no state and issues no
request. -/
def constFailStep : AppState → StepOut :=
  fun s => { outcome := Except.error (), state := s, reqs := [] }

/-- A world where Adapter A has a key and every Finnhub request succeeds
with price 1 and previous close 0 (so no arithmetic is involved in the
derived change). -/
def envAok : Env :=
  { rawKey := some "k"
    finnhub := fun _ => Except.ok { c := JNum.num 1, pc := JNum.num 0 }
    fmp := Except.error ()
    twelve := fun _ => Except.error () }

/-- The quotes Adapter A produces in the world envAok. -/
def stocksAok : List Stock :=
  SYMBOLS.map (fun sym => { symbol := sym, price := JNum.num 1, change := JNum.num 0 })

/-- A world with no credential where the FMP batched request succeeds with
a one-element array unrelated to the requested symbols. -/
def envBok : Env :=
  { rawKey := none
    finnhub := fun _ => Except.error ()
    fmp := Except.ok (FmpData.arr [{ symbol := "X", price := JNum.num 7, changesPercentage := JNum.num 2 }])
    twelve := fun _ => Except.error () }

/-- A world with no credential where the FMP batched request succeeds with
an empty array. -/
def envFmpEmpty : Env :=
  { rawKey := none
    finnhub := fun _ => Except.error ()
    fmp := Except.ok (FmpData.arr [])
    twelve := fun _ => Except.error () }

/-- A world where every adapter request throws (no key, network down). -/
def envAllFail : Env :=
  { rawKey := none
    finnhub := fun _ => Except.error ()
    fmp := Except.error ()
    twelve := fun _ => Except.error () }

/-- The final state of a resolution in the world envAllFail: the cascade
ends at TwelveData, whose per-symbol failures are all substituted. -/
def stateAllFail : AppState :=
  { stocks := SYMBOLS.map (twelveQuote envAllFail)
    loading := false
    error := ""
    note := twelveNote
    dataSource := Source.TwelveData }

/-- A world where Adapter A has a key and every Finnhub payload is
malformed: data.c and data.pc are missing, so Number(...) yields NaN; and
the FMP body is a delivered empty array. -/
def envMalformed : Env :=
  { rawKey := some "k"
    finnhub := fun _ => Except.ok { c := JNum.nan, pc := JNum.nan }
    fmp := Except.ok (FmpData.arr [])
    twelve := fun _ => Except.error () }

/-- A world where the TwelveData request for AAPL throws and every other
TwelveData request succeeds with price 5. -/
def envTwelvePartial : Env :=
  { rawKey := none
    finnhub := fun _ => Except.error ()
    fmp := Except.error ()
    twelve := fun sym => if sym = "AAPL" then Except.error () else Except.ok (JNum.num 5) }

/-- Helper: an absent or empty raw key yields an empty API key. -/
lemma apiKey_empty (raw : Option String) (h : raw = none ∨ raw = some "") :
    apiKey raw = "" := by
  rcases h with rfl | rfl <;> rfl

/-- Helper: a successful Finnhub per-symbol fetch keeps its symbol. -/
lemma finnhubQuote_symbol (env : Env) (sym : String) (q : Stock)
    (h : finnhubQuote env sym = Except.ok q) : q.symbol = sym := by
  unfold finnhubQuote at h
  rcases h2 : env.finnhub sym with _ | d <;> rw [h2] at h
  · cases h
  · injection h with h
    subst h
    rfl

/-- Helper: a successful Finnhub batch returns exactly the requested
symbols in order. -/
lemma finnhubQuotes_symbols (env : Env) :
    ∀ (l : List String) (res : List Stock),
      finnhubQuotes env l = Except.ok res → res.map Stock.symbol = l := by
  intro l
  induction l with
  | nil =>
    intro res h
    unfold finnhubQuotes at h
    injection h with h
    subst h
    rfl
  | cons sym rest ih =>
    intro res h
    unfold finnhubQuotes at h
    rcases h1 : finnhubQuote env sym with _ | q <;> rw [h1] at h
    · simp at h
    · rcases h2 : finnhubQuotes env rest with _ | qs <;> rw [h2] at h
      · simp at h
      · injection h with h
        subst h
        simp [finnhubQuote_symbol env sym q h1, ih qs h2]

/-- Helper: a TwelveData per-symbol quote keeps its symbol. -/
lemma twelveQuote_symbol (env : Env) (sym : String) :
    (twelveQuote env sym).symbol = sym := by
  unfold twelveQuote
  rcases h : env.twelve sym with _ | raw <;> simp [h]

/-- Helper: a TwelveData per-symbol quote always has change 0. -/
lemma twelveQuote_change (env : Env) (sym : String) :
    (twelveQuote env sym).change = JNum.num 0 := by
  unfold twelveQuote
  rcases h : env.twelve sym with _ | raw <;> simp [h]

/-- Helper: whatever any adapter attempt does, the cascade returns
normally with loading cleared by the finally block. -/
lemma runWithE_ok (fA fB fC : AppState → StepOut) (s0 : AppState) :
    ∃ s : AppState, (runWithE fA fB fC s0).result = Except.ok s ∧ s.loading = false := by
  unfold runWithE
  dsimp only
  split
  · exact ⟨_, rfl, rfl⟩
  · split
    · exact ⟨_, rfl, rfl⟩
    · split
      · exact ⟨_, rfl, rfl⟩
      · exact ⟨_, rfl, rfl⟩

/-- Helper: the three possible results of a resolution run: Adapter A
succeeded, else Adapter B succeeded, else the TwelveData result stands
(Adapter C never throws, so the Demo branch is unreachable through run). -/
lemma run_cases (env : Env) (s0 : AppState) :
    (∃ res : List Stock, apiKey env.rawKey ≠ "" ∧
       finnhubQuotes env SYMBOLS = Except.ok res ∧
       (run env s0).result = Except.ok
         { stocks := res, loading := false, error := "", note := ""
           dataSource := Source.Finnhub } ∧
       (run env s0).reqs = finnhubReqs env) ∨
    ((apiKey env.rawKey = "" ∨ finnhubQuotes env SYMBOLS = Except.error ()) ∧
     ∃ items : List FmpItem, env.fmp = Except.ok (FmpData.arr items) ∧
       (run env s0).result = Except.ok
         { stocks := items.map fmpToStock, loading := false, error := "", note := ""
           dataSource := Source.FMP }) ∨
    ((apiKey env.rawKey = "" ∨ finnhubQuotes env SYMBOLS = Except.error ()) ∧
     (env.fmp = Except.error () ∨ env.fmp = Except.ok FmpData.notArr) ∧
     (run env s0).result = Except.ok
       { stocks := SYMBOLS.map (twelveQuote env), loading := false, error := ""
         note := twelveNote, dataSource := Source.TwelveData }) := by
  by_cases hk : apiKey env.rawKey = ""
  · rcases hf : env.fmp with _ | d
    · right; right
      refine ⟨Or.inl hk, Or.inl rfl, ?_⟩
      simp [run, runWithE, fetchWithFinnhubS, fetchWithFMPS, fetchWithTwelveDataS, hk, hf]
    · rcases d with items | _
      · right; left
        exact ⟨Or.inl hk, items, rfl, by
          simp [run, runWithE, fetchWithFinnhubS, fetchWithFMPS, hk, hf]⟩
      · right; right
        refine ⟨Or.inl hk, Or.inr rfl, ?_⟩
        simp [run, runWithE, fetchWithFinnhubS, fetchWithFMPS, fetchWithTwelveDataS, hk, hf]
  · rcases ha : finnhubQuotes env SYMBOLS with _ | res
    · rcases hf : env.fmp with _ | d
      · right; right
        refine ⟨Or.inr rfl, Or.inl rfl, ?_⟩
        simp [run, runWithE, fetchWithFinnhubS, fetchWithFMPS, fetchWithTwelveDataS, hk, ha, hf]
      · rcases d with items | _
        · right; left
          exact ⟨Or.inr rfl, items, rfl, by
            simp [run, runWithE, fetchWithFinnhubS, fetchWithFMPS, hk, ha, hf]⟩
        · right; right
          refine ⟨Or.inr rfl, Or.inr rfl, ?_⟩
          simp [run, runWithE, fetchWithFinnhubS, fetchWithFMPS, fetchWithTwelveDataS, hk, ha, hf]
    · left
      exact ⟨res, hk, rfl, by
        simp [run, runWithE, fetchWithFinnhubS, hk, ha], by
        simp [run, runWithE, fetchWithFinnhubS, hk, ha]⟩

/-- Claim C1: for every combination of adapter outcomes (each of Adapters
A, B, C independently succeeding or failing), a call to resolve() returns
a ResolutionResult and never raises or propagates an error to its caller;
total failure of all adapters is itself a successful (degraded) result:
every branch of the nested try/catch of run yields a normal return with
loading cleared. -/
theorem claim_C1 (fA fB fC : AppState → StepOut) (s0 : AppState) (env : Env) :
    (∃ s : AppState, (runWithE fA fB fC s0).result = Except.ok s ∧ s.loading = false) ∧
    (∃ s : AppState, (resolve env).result = Except.ok s ∧ s.loading = false) :=
  ⟨runWithE_ok fA fB fC s0,
   runWithE_ok (fetchWithFinnhubS env) (fetchWithFMPS env) (fetchWithTwelveDataS env) initialState⟩

/-- Helper: mapping twelveQuote over symbols preserves the symbol list. -/
lemma map_twelveQuote_symbols (env : Env) :
    ∀ l : List String, (l.map (twelveQuote env)).map Stock.symbol = l := by
  intro l
  induction l with
  | nil => rfl
  | cons sym rest ih => simp [twelveQuote_symbol, ih]

/-- Claim C2 (amended): for the Finnhub and TwelveData adapters and the
Demo terminus the quotes returned by a resolution list every input Symbol
exactly once in input order; for the FMP adapter the quotes are the
provider response array mapped element-by-element, which need not match
the input Symbols in length or order, since the code performs no
one-to-one validation. -/
theorem claim_C2 (env : Env) (s0 sf : AppState)
    (h : (run env s0).result = Except.ok sf) :
    (sf.dataSource ≠ Source.FMP → sf.stocks.map Stock.symbol = SYMBOLS) ∧
    (sf.dataSource = Source.FMP →
      ∃ items : List FmpItem, env.fmp = Except.ok (FmpData.arr items) ∧
        sf.stocks = items.map fmpToStock) := by
  rcases run_cases env s0 with ⟨res, _, ha, hres, _⟩ | ⟨_, items, hf, hres⟩ | ⟨_, _, hres⟩
  · rw [h] at hres
    injection hres with hres
    subst hres
    exact ⟨fun _ => finnhubQuotes_symbols env SYMBOLS res ha, fun hd => by simp at hd⟩
  · rw [h] at hres
    injection hres with hres
    subst hres
    exact ⟨fun hd => absurd rfl hd, fun _ => ⟨items, hf, rfl⟩⟩
  · rw [h] at hres
    injection hres with hres
    subst hres
    exact ⟨fun _ => map_twelveQuote_symbols env SYMBOLS, fun hd => by simp at hd⟩

/-- Claim C2, counterexample to the original claim: with no credential and
an FMP response that is a delivered empty array, the resolution succeeds
with source FMP and an empty quotes list, while the input has four
Symbols. -/
theorem claim_C2_counterexample :
    (resolve envFmpEmpty).result.map AppState.stocks = Except.ok [] ∧
    (resolve envFmpEmpty).result.map AppState.dataSource = Except.ok Source.FMP ∧
    SYMBOLS.length = 4 :=
  ⟨rfl, rfl, rfl⟩

/-- Claim C2, witness: the amended theorem applied to the world where all
providers are down, whose resolution ends at TwelveData. -/
theorem claim_C2_witness :
    (run envAllFail initialState).result = Except.ok stateAllFail ∧
    ((stateAllFail.dataSource ≠ Source.FMP →
        stateAllFail.stocks.map Stock.symbol = SYMBOLS) ∧
     (stateAllFail.dataSource = Source.FMP →
        ∃ items : List FmpItem, envAllFail.fmp = Except.ok (FmpData.arr items) ∧
          stateAllFail.stocks = items.map fmpToStock)) :=
  ⟨rfl, claim_C2 envAllFail initialState stateAllFail rfl⟩

/-- Claim C3: if all three adapters fail, the cascade returns source Demo,
the advisory "Using local demo data (APIs unavailable)." (present and
non-empty), and the Static Fallback Dataset DEMO as the quotes, so every
returned price is the corresponding DEMO price. -/
theorem claim_C3 (fA fB fC : AppState → StepOut) (s0 : AppState)
    (hA : ∀ s, (fA s).outcome = Except.error ())
    (hB : ∀ s, (fB s).outcome = Except.error ())
    (hC : ∀ s, (fC s).outcome = Except.error ()) :
    (runWithE fA fB fC s0).result.map AppState.dataSource = Except.ok Source.Demo ∧
    (runWithE fA fB fC s0).result.map AppState.note = Except.ok demoNote ∧
    0 < demoNote.length ∧
    (runWithE fA fB fC s0).result.map AppState.stocks = Except.ok DEMO ∧
    (runWithE fA fB fC s0).result.map (fun s => s.stocks.map Stock.price) =
      Except.ok (DEMO.map Stock.price) := by
  simp only [runWithE, hA, hB, hC]
  exact ⟨rfl, rfl, by decide, rfl, rfl⟩

/-- Claim C3, witness: the theorem applied to three always-failing adapter
attempts from the initial state. -/
theorem claim_C3_witness :
    (runWithE constFailStep constFailStep constFailStep initialState).result.map
      AppState.dataSource = Except.ok Source.Demo ∧
    (runWithE constFailStep constFailStep constFailStep initialState).result.map
      AppState.note = Except.ok demoNote ∧
    0 < demoNote.length ∧
    (runWithE constFailStep constFailStep constFailStep initialState).result.map
      AppState.stocks = Except.ok DEMO ∧
    (runWithE constFailStep constFailStep constFailStep initialState).result.map
      (fun s => s.stocks.map Stock.price) = Except.ok (DEMO.map Stock.price) :=
  claim_C3 constFailStep constFailStep constFailStep initialState
    (fun _ => rfl) (fun _ => rfl) (fun _ => rfl)

/-- Claim C4: if Adapter A (Finnhub) succeeds for all symbols, the
resolution has source Finnhub, returns exactly the Finnhub quotes, and the
request trace of the whole run is the Finnhub fan-out alone: every issued
request goes to Finnhub, so no network traffic reaches FMP or
TwelveData. -/
theorem claim_C4 (env : Env) (s0 : AppState) (res : List Stock)
    (hkey : apiKey env.rawKey ≠ "")
    (hok : finnhubQuotes env SYMBOLS = Except.ok res) :
    (run env s0).result.map AppState.dataSource = Except.ok Source.Finnhub ∧
    (run env s0).result.map AppState.stocks = Except.ok res ∧
    (run env s0).reqs = finnhubReqs env ∧
    ∀ r ∈ (run env s0).reqs, r.provider = Source.Finnhub := by
  rcases run_cases env s0 with ⟨res2, _, ha, hres, hreq⟩ | ⟨hfail, _, _, _⟩ | ⟨hfail, _, _⟩
  · have : res2 = res := by
      rw [ha] at hok
      injection hok
    subst this
    refine ⟨by rw [hres]; rfl, by rw [hres]; rfl, hreq, ?_⟩
    rw [hreq]
    intro r hr
    simp [finnhubReqs, SYMBOLS] at hr
    rcases hr with rfl | rfl | rfl | rfl <;> rfl
  · rcases hfail with hk0 | haerr
    · exact absurd hk0 hkey
    · rw [haerr] at hok
      simp at hok
  · rcases hfail with hk0 | haerr
    · exact absurd hk0 hkey
    · rw [haerr] at hok
      simp at hok

/-- Claim C4, witness: the theorem applied to a world where every Finnhub
request succeeds. -/
theorem claim_C4_witness :
    apiKey envAok.rawKey ≠ "" ∧
    finnhubQuotes envAok SYMBOLS = Except.ok stocksAok ∧
    ((run envAok initialState).result.map AppState.dataSource = Except.ok Source.Finnhub ∧
     (run envAok initialState).result.map AppState.stocks = Except.ok stocksAok ∧
     (run envAok initialState).reqs = finnhubReqs envAok ∧
     ∀ r ∈ (run envAok initialState).reqs, r.provider = Source.Finnhub) :=
  ⟨by decide, rfl, claim_C4 envAok initialState stocksAok (by decide) rfl⟩

/-- Claim C5: with no credential (absent or empty API key), Adapter A
throws immediately and issues no network request; and when Adapter A fails
this way while the FMP batched request delivers an array, the resolution
has source FMP. -/
theorem claim_C5 (env : Env) (s s0 : AppState) (items : List FmpItem)
    (hkey : env.rawKey = none ∨ env.rawKey = some "")
    (hfmp : env.fmp = Except.ok (FmpData.arr items)) :
    (fetchWithFinnhubS env s).outcome = Except.error () ∧
    (fetchWithFinnhubS env s).reqs = [] ∧
    (run env s0).result.map AppState.dataSource = Except.ok Source.FMP ∧
    (run env s0).result.map AppState.stocks = Except.ok (items.map fmpToStock) := by
  have hk : apiKey env.rawKey = "" := apiKey_empty env.rawKey hkey
  refine ⟨by simp [fetchWithFinnhubS, hk], by simp [fetchWithFinnhubS, hk], ?_⟩
  rcases run_cases env s0 with ⟨res, hkne, _, _, _⟩ | ⟨_, items2, hf2, hres⟩ | ⟨_, hBfail, _⟩
  · exact absurd hk hkne
  · have : items2 = items := by
      rw [hf2] at hfmp
      injection hfmp with hfmp
      injection hfmp
    subst this
    exact ⟨by rw [hres]; rfl, by rw [hres]; rfl⟩
  · rcases hBfail with hb | hb <;> rw [hb] at hfmp <;> simp at hfmp

/-- Claim C5, witness: the theorem applied to a world with no key and a
delivered one-element FMP array. -/
theorem claim_C5_witness :
    envBok.rawKey = none ∧
    envBok.fmp = Except.ok (FmpData.arr
      [{ symbol := "X", price := JNum.num 7, changesPercentage := JNum.num 2 }]) ∧
    ((fetchWithFinnhubS envBok initialState).outcome = Except.error () ∧
     (fetchWithFinnhubS envBok initialState).reqs = [] ∧
     (run envBok initialState).result.map AppState.dataSource = Except.ok Source.FMP ∧
     (run envBok initialState).result.map AppState.stocks = Except.ok
       ([{ symbol := "X", price := JNum.num 7, changesPercentage := JNum.num 2 }].map fmpToStock)) :=
  ⟨rfl, rfl, claim_C5 envBok initialState initialState
    [{ symbol := "X", price := JNum.num 7, changesPercentage := JNum.num 2 }]
    (Or.inl rfl) rfl⟩

/-- Claim C6: in Adapter C (TwelveData), a per-symbol request failure for a
tracked symbol yields a quote with the static fallback price for that
symbol and change 0; each per-symbol quote depends only on that symbol's
own response, so other symbols in the same call are unaffected; the
adapter as a whole succeeds (its outcome is never a failure); change is 0
for every returned quote; and the pipeline advisory note is set and
non-empty. -/
theorem claim_C6 (env : Env) (s : AppState) (sym : String)
    (hmem : sym ∈ SYMBOLS) (hfail : env.twelve sym = Except.error ()) :
    (fetchWithTwelveDataS env s).outcome = Except.ok (SYMBOLS.map (twelveQuote env)) ∧
    twelveQuote env sym =
      { symbol := sym, price := JNum.num ((fallbackLookup sym).getD 0)
        change := JNum.num 0 } ∧
    (fallbackLookup sym).isSome = true ∧
    (fallbackLookup sym).map JNum.num =
      (DEMO.find? (fun d => d.symbol == sym)).map Stock.price ∧
    (∀ env2 : Env, ∀ s2 : String, env2.twelve s2 = env.twelve s2 →
      twelveQuote env2 s2 = twelveQuote env s2) ∧
    (∀ q ∈ SYMBOLS.map (twelveQuote env), q.change = JNum.num 0) ∧
    (fetchWithTwelveDataS env s).state.note = twelveNote ∧
    0 < twelveNote.length := by
  refine ⟨rfl, ?_, ?_, ?_, ?_, ?_, rfl, by decide⟩
  · unfold twelveQuote
    rw [hfail]
  · simp [SYMBOLS] at hmem
    rcases hmem with rfl | rfl | rfl | rfl <;> rfl
  · simp [SYMBOLS] at hmem
    rcases hmem with rfl | rfl | rfl | rfl <;> rfl
  · intro env2 s2 h2
    unfold twelveQuote
    rw [h2]
  · intro q hq
    obtain ⟨s2, _, rfl⟩ := List.mem_map.1 hq
    exact twelveQuote_change env s2

/-- Claim C6, witness: the theorem applied to a world where the TwelveData
request for AAPL throws and the others succeed. -/
theorem claim_C6_witness :
    "AAPL" ∈ SYMBOLS ∧
    envTwelvePartial.twelve "AAPL" = Except.error () ∧
    ((fetchWithTwelveDataS envTwelvePartial initialState).outcome =
        Except.ok (SYMBOLS.map (twelveQuote envTwelvePartial)) ∧
     twelveQuote envTwelvePartial "AAPL" =
       { symbol := "AAPL", price := JNum.num ((fallbackLookup "AAPL").getD 0)
         change := JNum.num 0 } ∧
     (fallbackLookup "AAPL").isSome = true ∧
     (fallbackLookup "AAPL").map JNum.num =
       (DEMO.find? (fun d => d.symbol == "AAPL")).map Stock.price ∧
     (∀ env2 : Env, ∀ s2 : String, env2.twelve s2 = envTwelvePartial.twelve s2 →
       twelveQuote env2 s2 = twelveQuote envTwelvePartial s2) ∧
     (∀ q ∈ SYMBOLS.map (twelveQuote envTwelvePartial), q.change = JNum.num 0) ∧
     (fetchWithTwelveDataS envTwelvePartial initialState).state.note = twelveNote ∧
     0 < twelveNote.length) :=
  ⟨by decide, rfl, claim_C6 envTwelvePartial initialState "AAPL" (by decide) rfl⟩

/-- Claim C7: Adapter A computes changePercent as
(current - previousClose) / previousClose * 100 for a nonzero finite
previous close, reports 0 when the previous close is zero (never NaN), and
yields exactly 10 for price 110 and previous close 100. -/
theorem claim_C7 :
    (∀ c p : ℚ, p ≠ 0 →
      changeCalc (JNum.num c) (JNum.num p) = JNum.num ((c - p) / p * 100)) ∧
    changeCalc (JNum.num 110) (JNum.num 100) = JNum.num 10 ∧
    (∀ x : JNum, changeCalc x (JNum.num 0) = JNum.num 0) := by
  have key : ∀ c p : ℚ, p ≠ 0 →
      changeCalc (JNum.num c) (JNum.num p) = JNum.num ((c - p) / p * 100) := by
    intro c p hp
    simp [changeCalc, JNum.truthy, JNum.sub, JNum.div, JNum.mul, hp]
  refine ⟨key, ?_, ?_⟩
  · rw [key 110 100 (by norm_num)]
    norm_num
  · intro x
    simp [changeCalc, JNum.truthy]

/-- Claim C7, witness: the general formula applied at price 110 and
previous close 100. -/
theorem claim_C7_witness :
    changeCalc (JNum.num 110) (JNum.num 100) = JNum.num ((110 - 100) / 100 * 100) :=
  claim_C7.1 110 100 (by norm_num)

/-- Claim C8 (amended): Adapters A and B fail with a caught throw on a
network error or non-success status, and Adapter B also fails when the
delivered body is not an array, each triggering cascade advance; but a
delivered payload with missing or non-numeric fields does not fail either
adapter: Adapter A returns quotes whose price is NaN (with change 0), and
Adapter B maps the delivered array as is, so an empty or
symbol-mismatched array yields an empty or mismatched quotes list rather
than a failure. -/
theorem claim_C8 (env : Env) (s : AppState) :
    (env.fmp = Except.error () →
      (fetchWithFMPS env s).outcome = Except.error ()) ∧
    (env.fmp = Except.ok FmpData.notArr →
      (fetchWithFMPS env s).outcome = Except.error ()) ∧
    (env.fmp = Except.ok (FmpData.arr []) →
      (fetchWithFMPS env s).outcome = Except.ok []) ∧
    (apiKey env.rawKey ≠ "" →
      (∀ sym, env.finnhub sym = Except.ok { c := JNum.nan, pc := JNum.nan }) →
      (fetchWithFinnhubS env s).outcome = Except.ok
        (SYMBOLS.map (fun sym => { symbol := sym, price := JNum.nan, change := JNum.num 0 }))) ∧
    (apiKey env.rawKey ≠ "" → env.finnhub "AAPL" = Except.error () →
      (fetchWithFinnhubS env s).outcome = Except.error ()) := by
  refine ⟨?_, ?_, ?_, ?_, ?_⟩
  · intro h
    simp [fetchWithFMPS, h]
  · intro h
    simp [fetchWithFMPS, h]
  · intro h
    simp [fetchWithFMPS, h]
  · intro hkey hall
    simp [fetchWithFinnhubS, hkey, SYMBOLS, finnhubQuotes, finnhubQuote, hall,
      changeCalc, JNum.truthy]
  · intro hkey herr
    simp [fetchWithFinnhubS, hkey, SYMBOLS, finnhubQuotes, finnhubQuote, herr]

/-- Claim C8, counterexample to the original claim: with a key present,
Finnhub payloads whose required fields are missing (so both numeric fields
read as NaN) do not produce a failure: Adapter A succeeds with NaN prices;
and a delivered empty FMP array does not produce a failure either: Adapter
B succeeds with an empty quotes list. -/
theorem claim_C8_counterexample :
    (fetchWithFinnhubS envMalformed initialState).outcome = Except.ok
      [ { symbol := "AAPL", price := JNum.nan, change := JNum.num 0 }
      , { symbol := "MSFT", price := JNum.nan, change := JNum.num 0 }
      , { symbol := "GOOGL", price := JNum.nan, change := JNum.num 0 }
      , { symbol := "AMZN", price := JNum.nan, change := JNum.num 0 } ] ∧
    (fetchWithFMPS envMalformed initialState).outcome = Except.ok [] :=
  ⟨rfl, rfl⟩

/-- Claim C8, witness: the amended theorem applied in the malformed-payload
world: the all-NaN Finnhub batch succeeds. -/
theorem claim_C8_witness :
    (fetchWithFinnhubS envMalformed initialState).outcome = Except.ok
      (SYMBOLS.map (fun sym => { symbol := sym, price := JNum.nan, change := JNum.num 0 })) :=
  (claim_C8 envMalformed initialState).2.2.2.1 (by decide) (fun _ => rfl)

/-- Claim C9: the Static Fallback Dataset used as the cascade terminus
(DEMO) and the per-symbol substitution table inside Adapter C (FALLBACK)
agree: for every configured Symbol the FALLBACK mapping is defined and its
price equals the DEMO price for that Symbol. -/
theorem claim_C9 (sym : String) (hmem : sym ∈ SYMBOLS) :
    (fallbackLookup sym).isSome = true ∧
    (fallbackLookup sym).map JNum.num =
      (DEMO.find? (fun d => d.symbol == sym)).map Stock.price := by
  simp [SYMBOLS] at hmem
  rcases hmem with rfl | rfl | rfl | rfl <;> exact ⟨rfl, rfl⟩

/-- Claim C9, witness: the agreement at the symbol AAPL. -/
theorem claim_C9_witness :
    (fallbackLookup "AAPL").isSome = true ∧
    (fallbackLookup "AAPL").map JNum.num =
      (DEMO.find? (fun d => d.symbol == "AAPL")).map Stock.price :=
  claim_C9 "AAPL" (by decide)

/-- Claim C10: Adapter C is total: fetchWithTwelveData never throws, every
per-symbol error being caught and substituted; consequently a resolution
run always ends with source Finnhub, FMP or TwelveData, and the final Demo
branch of the cascade is unreachable through network or payload
failures. -/
theorem claim_C10 (env : Env) (s s0 : AppState) :
    (fetchWithTwelveDataS env s).outcome = Except.ok (SYMBOLS.map (twelveQuote env)) ∧
    (run env s0).result.map AppState.dataSource ∈
      [Except.ok Source.Finnhub, Except.ok Source.FMP, Except.ok Source.TwelveData] := by
  refine ⟨rfl, ?_⟩
  rcases run_cases env s0 with ⟨res, _, _, hres, _⟩ | ⟨_, items, _, hres⟩ | ⟨_, _, hres⟩ <;>
    rw [hres] <;> simp [Except.map]
